import Mathlib

/-!
Verification development for the travel-booking payment backend
(`src/Backend/router/PaymentRouter.js`, plus the Stripe checkout route that
lives in the unnamed router file).  The JavaScript request handlers are
shallowly embedded as pure Lean functions: the Mongo collection becomes an
explicit list of payment records threaded through each handler, the vendor
SDK calls become either parameters (sanitizer, PayPal order lookups) or a
returned "delegation" value describing the outbound request, and `crypto`
MD5 is implemented concretely so that signature comparisons are the real
ones the code performs.
-/

namespace Travelling

set_option maxRecDepth 100000

attribute [local semireducible] Rat.add Rat.mul Rat.inv Rat.sub Rat.ofScientific

/-! ## Bytes, hex, and MD5 (the `crypto.createHash('md5')....digest('hex')` calls) -/

/-- UTF-8 encoding of a single code point, as a list of byte values. -/
def utf8Char (c : Char) : List Nat :=
  let n := c.toNat
  if n < 0x80 then [n]
  else if n < 0x800 then
    [0xC0 + n / 0x40, 0x80 + n % 0x40]
  else if n < 0x10000 then
    [0xE0 + n / 0x1000, 0x80 + (n / 0x40) % 0x40, 0x80 + n % 0x40]
  else
    [0xF0 + n / 0x40000, 0x80 + (n / 0x1000) % 0x40, 0x80 + (n / 0x40) % 0x40,
      0x80 + n % 0x40]

/-- UTF-8 bytes of a string (what `crypto.update` hashes for a JS string). -/
def utf8Bytes (s : String) : List Nat :=
  s.data.flatMap utf8Char

/-- Lower-case hex digit for a value below 16. -/
def hexDigit (n : Nat) : Char :=
  if n < 10 then Char.ofNat (48 + n) else Char.ofNat (87 + n)

/-- Two-digit lower-case hex rendering of a byte. -/
def hexByte (b : Nat) : List Char :=
  [hexDigit (b / 16 % 16), hexDigit (b % 16)]

/-- Lower-case hex string of a byte list (Node's `digest('hex')`). -/
def bytesToHex (bs : List Nat) : String :=
  ⟨bs.flatMap hexByte⟩

/-- 32-bit truncating addition. -/
def add32 (a b : Nat) : Nat := (a + b) % 4294967296

/-- 32-bit bitwise complement. -/
def not32 (a : Nat) : Nat := 4294967295 - a % 4294967296

/-- 32-bit left rotation. -/
def rotl32 (x s : Nat) : Nat :=
  ((x % 4294967296) * 2 ^ s + (x % 4294967296) / 2 ^ (32 - s)) % 4294967296

/-- The 64 MD5 sine-derived round constants. -/
def md5K : List Nat :=
  [0xd76aa478, 0xe8c7b756, 0x242070db, 0xc1bdceee,
   0xf57c0faf, 0x4787c62a, 0xa8304613, 0xfd469501,
   0x698098d8, 0x8b44f7af, 0xffff5bb1, 0x895cd7be,
   0x6b901122, 0xfd987193, 0xa679438e, 0x49b40821,
   0xf61e2562, 0xc040b340, 0x265e5a51, 0xe9b6c7aa,
   0xd62f105d, 0x02441453, 0xd8a1e681, 0xe7d3fbc8,
   0x21e1cde6, 0xc33707d6, 0xf4d50d87, 0x455a14ed,
   0xa9e3e905, 0xfcefa3f8, 0x676f02d9, 0x8d2a4c8a,
   0xfffa3942, 0x8771f681, 0x6d9d6122, 0xfde5380c,
   0xa4beea44, 0x4bdecfa9, 0xf6bb4b60, 0xbebfbc70,
   0x289b7ec6, 0xeaa127fa, 0xd4ef3085, 0x04881d05,
   0xd9d4d039, 0xe6db99e5, 0x1fa27cf8, 0xc4ac5665,
   0xf4292244, 0x432aff97, 0xab9423a7, 0xfc93a039,
   0x655b59c3, 0x8f0ccc92, 0xffeff47d, 0x85845dd1,
   0x6fa87e4f, 0xfe2ce6e0, 0xa3014314, 0x4e0811a1,
   0xf7537e82, 0xbd3af235, 0x2ad7d2bb, 0xeb86d391]

/-- The 64 MD5 per-round rotation amounts. -/
def md5S : List Nat :=
  [7, 12, 17, 22, 7, 12, 17, 22, 7, 12, 17, 22, 7, 12, 17, 22,
   5, 9, 14, 20, 5, 9, 14, 20, 5, 9, 14, 20, 5, 9, 14, 20,
   4, 11, 16, 23, 4, 11, 16, 23, 4, 11, 16, 23, 4, 11, 16, 23,
   6, 10, 15, 21, 6, 10, 15, 21, 6, 10, 15, 21, 6, 10, 15, 21]

/-- MD5 message padding: append 0x80, zero-pad to 56 mod 64, then the
original bit length as a 64-bit little-endian quantity. -/
def md5Pad (msg : List Nat) : List Nat :=
  let bitLen := msg.length * 8
  let zeros := (119 - msg.length % 64) % 64
  msg ++ [0x80] ++ List.replicate zeros 0 ++
    (List.range 8).map (fun i => bitLen / 2 ^ (8 * i) % 256)

/-- Split a little-endian 64-byte block into sixteen 32-bit words. -/
def md5Words (block : List Nat) : List Nat :=
  (List.range 16).map (fun i =>
    block.getD (4 * i) 0 + block.getD (4 * i + 1) 0 * 256 +
      block.getD (4 * i + 2) 0 * 65536 + block.getD (4 * i + 3) 0 * 16777216)

/-- One MD5 round step: the nonlinear function and message index depend on
the round number `i`. -/
def md5Step (M : List Nat) (st : Nat × Nat × Nat × Nat) (i : Nat) :
    Nat × Nat × Nat × Nat :=
  let (a, b, c, d) := st
  let f :=
    if i < 16 then b.land c |>.lor ((not32 b).land d)
    else if i < 32 then d.land b |>.lor ((not32 d).land c)
    else if i < 48 then b.xor c |>.xor d
    else c.xor (b.lor (not32 d))
  let g :=
    if i < 16 then i
    else if i < 32 then (5 * i + 1) % 16
    else if i < 48 then (3 * i + 5) % 16
    else (7 * i) % 16
  let sum := add32 (add32 (add32 a f) (md5K.getD i 0)) (M.getD g 0)
  (d, add32 b (rotl32 sum (md5S.getD i 0)), b, c)

/-- Process one 64-byte block, updating the running 4-word state. -/
def md5Block (st : Nat × Nat × Nat × Nat) (block : List Nat) :
    Nat × Nat × Nat × Nat :=
  let (a0, b0, c0, d0) := st
  let M := md5Words block
  let (a, b, c, d) := (List.range 64).foldl (md5Step M) (a0, b0, c0, d0)
  (add32 a0 a, add32 b0 b, add32 c0 c, add32 d0 d)

/-- Split a byte list into consecutive 64-byte chunks (fuel-driven). -/
def chunks64Aux : Nat → List Nat → List (List Nat)
  | 0, _ => []
  | _, [] => []
  | fuel + 1, l => l.take 64 :: chunks64Aux fuel (l.drop 64)

/-- Split a byte list into consecutive 64-byte chunks. -/
def chunks64 (l : List Nat) : List (List Nat) :=
  chunks64Aux l.length l

/-- Little-endian byte rendering of a 32-bit word. -/
def word32Bytes (w : Nat) : List Nat :=
  [w % 256, w / 256 % 256, w / 65536 % 256, w / 16777216 % 256]

/-- MD5 digest of a byte list, as 16 bytes. -/
def md5Bytes (msg : List Nat) : List Nat :=
  let init := (0x67452301, 0xefcdab89, 0x98badcfe, 0x10325476)
  let (a, b, c, d) := (chunks64 (md5Pad msg)).foldl md5Block init
  word32Bytes a ++ word32Bytes b ++ word32Bytes c ++ word32Bytes d

/-- Lower-case hex MD5 of a string:
`crypto.createHash('md5').update(s).digest('hex')`. -/
def md5Hex (s : String) : String :=
  bytesToHex (md5Bytes (utf8Bytes s))

/-- ASCII upper-casing, mirroring JavaScript `String.prototype.toUpperCase`
on the hex alphabet actually produced by digests. -/
def strUpper (s : String) : String :=
  ⟨s.data.map Char.toUpper⟩

/-- Upper-case hex MD5 of a string:
`crypto.createHash('md5').update(s).digest('hex').toUpperCase()`. -/
def md5HexUpper (s : String) : String :=
  strUpper (md5Hex s)

/-! ## JavaScript values

Request-body fields arrive through `express.json()` and are destructured
untyped; the handlers then branch on truthiness (`!field`), loose numeric
equality (`status_code == 2`), strict string inequality (`!== md5sig`) and
string coercion (template literals, `+`).  `JSVal` models the values such a
field can hold.  JavaScript `NaN` is the `nan` constructor; finite doubles
are modelled as rationals (every payload value relevant here is a short
decimal, which doubles represent with enough precision that the modelled
arithmetic agrees with the code's). -/

mutual

inductive JSVal where
  | undefined
  | null
  | bool (b : Bool)
  | num (q : Rat)
  | nan
  | str (s : String)
  | arr (elems : JArr)
  | obj (members : JObj)
deriving DecidableEq, Repr

/-- Array payloads (a first-order list of `JSVal`). -/
inductive JArr where
  | nil
  | cons (head : JSVal) (tail : JArr)
deriving DecidableEq, Repr

/-- Object payloads: ordered key/value members. -/
inductive JObj where
  | nil
  | cons (key : String) (val : JSVal) (tail : JObj)
deriving DecidableEq, Repr

end

/-- JavaScript ToBoolean: the truthiness the `!field` checks test.
Objects and arrays are always truthy. -/
def truthy : JSVal → Bool
  | .undefined => false
  | .null => false
  | .bool b => b
  | .num q => !(q == 0)
  | .nan => false
  | .str s => !(s == "")
  | .arr _ => true
  | .obj _ => true

/-- Longest prefix of a character list satisfying `p`, with the rest. -/
def spanChars (p : Char → Bool) : List Char → List Char × List Char
  | [] => ([], [])
  | c :: cs =>
    if p c then
      let (pre, rest) := spanChars p cs
      (c :: pre, rest)
    else ([], c :: cs)

/-- Decimal digit test. -/
def isDigit (c : Char) : Bool := 48 ≤ c.toNat && c.toNat ≤ 57

/-- Value of a digit list read as a decimal natural number. -/
def digitsVal (ds : List Char) : Nat :=
  ds.foldl (fun acc c => 10 * acc + (c.toNat - 48)) 0

/-- JavaScript whitespace (the characters `Number`/`parseFloat` trim). -/
def isJsWs (c : Char) : Bool :=
  c == ' ' || c == '\t' || c == '\n' || c == '\r' || c.toNat == 12 ||
    c.toNat == 11 || c.toNat == 0xA0

/-- Parse an optional sign; returns the sign as a rational and the rest. -/
def parseSign : List Char → Rat × List Char
  | '-' :: cs => (-1, cs)
  | '+' :: cs => (1, cs)
  | cs => (1, cs)

/-- Parse `digits [. digits] [e|E [sign] digits]` returning its rational
value, requiring at least one digit overall; `none` when the characters do
not begin a decimal literal.  Also returns the unconsumed rest. -/
def parseDecimal (cs : List Char) : Option (Rat × List Char) :=
  let (intDs, rest1) := spanChars isDigit cs
  let (fracDs, rest2) :=
    match rest1 with
    | '.' :: cs1 =>
      let (ds, r) := spanChars isDigit cs1
      (ds, r)
    | _ => ([], rest1)
  if intDs.isEmpty && fracDs.isEmpty then none
  else
    let mantissa : Rat :=
      (digitsVal intDs : Rat) +
        (digitsVal fracDs : Rat) / ((10 : Rat) ^ fracDs.length)
    match rest2 with
    | e :: cs2 =>
      if e == 'e' || e == 'E' then
        let (es, cs3) := parseSign cs2
        let (expDs, rest3) := spanChars isDigit cs3
        if expDs.isEmpty then some (mantissa, rest2)
        else
          let p : Rat := (10 : Rat) ^ digitsVal expDs
          some ((if es == 1 then mantissa * p else mantissa / p), rest3)
      else some (mantissa, rest2)
    | [] => some (mantissa, [])

/-- Decimal rendering of a natural number. -/
def natToDigits (n : Nat) : String := toString n

/-- Decimal rendering of a non-negative rational: integers print without a
point; non-integers print integer part and up to 20 fractional digits
(exact whenever the denominator divides a power of ten, which covers every
decimal amount the handlers see). -/
def ratToStringNonneg (q : Rat) : String :=
  if q.den == 1 then natToDigits q.num.toNat
  else
    let scaled := (q * (10 : Rat) ^ 20).floor.toNat
    let frac := toString (scaled % 10 ^ 20)
    let padded := String.mk (List.replicate (20 - frac.length) '0') ++ frac
    let trimmed := String.mk (padded.data.reverse.dropWhile (· == '0')).reverse
    natToDigits (scaled / 10 ^ 20) ++ "." ++ trimmed

/-- JavaScript ToString for the rationals occurring in these payloads. -/
def ratToString (q : Rat) : String :=
  if q < 0 then "-" ++ ratToStringNonneg (-q) else ratToStringNonneg q

/-- JavaScript ToNumber on a string (`none` encodes `NaN`): trimmed empty
string is `0`; otherwise an optionally signed decimal literal consuming the
whole string.  (Hex/`Infinity` forms are outside the payloads modelled.) -/
def strToNumber (s : String) : Option Rat :=
  let cs := (spanChars isJsWs s.data).2
  let csr := (spanChars isJsWs cs.reverse).2
  let core := csr.reverse
  if core.isEmpty then some 0
  else
    let (sign, cs1) := parseSign core
    match parseDecimal cs1 with
    | some (q, []) => some (sign * q)
    | _ => none

mutual

/-- JavaScript ToString, as applied inside template literals and
string-concatenating `+`: arrays join their elements with commas, plain
objects print as `[object Object]`. -/
def jsToString : JSVal → String
  | .undefined => "undefined"
  | .null => "null"
  | .bool b => if b then "true" else "false"
  | .num q => ratToString q
  | .nan => "NaN"
  | .str s => s
  | .arr es => arrJoin es
  | .obj _ => "[object Object]"

/-- `Array.prototype.toString`: elements joined by commas, with `null` and
`undefined` elements rendered empty. -/
def arrJoin : JArr → String
  | .nil => ""
  | .cons v .nil => arrElemStr v
  | .cons v vs => arrElemStr v ++ "," ++ arrJoin vs
  termination_by structural a => a

/-- One array element inside a join: `null` and `undefined` render empty,
everything else renders as its ToString. -/
def arrElemStr : JSVal → String
  | .undefined => ""
  | .null => ""
  | .bool b => if b then "true" else "false"
  | .num q => ratToString q
  | .nan => "NaN"
  | .str s => s
  | .arr es => arrJoin es
  | .obj _ => "[object Object]"
  termination_by structural v => v

end

/-- JavaScript ToNumber on a value (`none` encodes `NaN`): objects and
arrays convert through their primitive (string) form. -/
def toNumber : JSVal → Option Rat
  | .undefined => none
  | .null => some 0
  | .bool b => some (if b then 1 else 0)
  | .num q => some q
  | .nan => none
  | .str s => strToNumber s
  | .arr es => strToNumber (arrJoin es)
  | .obj _ => none

/-- Loose equality `v == n` against a numeric literal, as in
`status_code == 2`: non-numbers are converted via ToNumber; `NaN` compares
unequal to everything. -/
def looseEqNum (v : JSVal) (n : Rat) : Bool :=
  match toNumber v with
  | some q => q == n
  | none => false

/-- Whether ToPrimitive of this value is a string (forcing `+` to
concatenate). -/
def stringish : JSVal → Bool
  | .str _ => true
  | .arr _ => true
  | .obj _ => true
  | _ => false

/-- JavaScript `+`: string concatenation as soon as either operand converts
to a string primitive, numeric addition otherwise. -/
def jsAdd (a b : JSVal) : JSVal :=
  if stringish a || stringish b then .str (jsToString a ++ jsToString b)
  else
    match toNumber a, toNumber b with
    | some x, some y => .num (x + y)
    | _, _ => .nan

/-- JavaScript `parseFloat`: skip leading whitespace, then read the longest
optionally signed decimal prefix; `none` encodes `NaN`. -/
def jsParseFloat (s : String) : Option Rat :=
  let cs := (spanChars isJsWs s.data).2
  let (sign, cs1) := parseSign cs
  match parseDecimal cs1 with
  | some (q, _) => some (sign * q)
  | none => none

/-- `toFixed(2)` on a non-negative rational: round to hundredths, print
with exactly two fractional digits. -/
def toFixed2Nonneg (q : Rat) : String :=
  let n := (q * 100 + 1 / 2).floor.toNat
  let frac := n % 100
  natToDigits (n / 100) ++ "." ++
    (if frac < 10 then "0" else "") ++ natToDigits frac

/-- `Number.prototype.toFixed(2)` for the (exactly representable) amounts
these routes format.  `none` (`NaN`) prints as `"NaN"`. -/
def toFixed2 : Option Rat → String
  | none => "NaN"
  | some q => if q < 0 then "-" ++ toFixed2Nonneg (-q) else toFixed2Nonneg q

/-! ## `JSON.parse`

The notify handler calls `JSON.parse(custom_1)` inside a `try` block; a
throw is modelled as `none`.  The grammar implemented is RFC 8259 JSON:
strict number syntax, the eight escape forms, no trailing garbage.  The
recursive-descent functions carry a fuel argument; `jsonParse` supplies
more fuel than any input of that length can consume, so `none` means the
input is genuinely not JSON. -/

/-- JSON insignificant whitespace. -/
def jsonWs (c : Char) : Bool :=
  c == ' ' || c == '\t' || c == '\n' || c == '\r'

/-- Drop leading JSON whitespace. -/
def jsonSkip (cs : List Char) : List Char :=
  (spanChars jsonWs cs).2

/-- Hex digit value, or `none`. -/
def hexVal (c : Char) : Option Nat :=
  if isDigit c then some (c.toNat - 48)
  else if 97 ≤ c.toNat && c.toNat ≤ 102 then some (c.toNat - 87)
  else if 65 ≤ c.toNat && c.toNat ≤ 70 then some (c.toNat - 55)
  else none

/-- Parse the body of a JSON string after the opening quote, accumulating
decoded characters in reverse. -/
def parseJsonStringAux : Nat → List Char → List Char → Option (String × List Char)
  | 0, _, _ => none
  | _, _, [] => none
  | fuel + 1, acc, c :: rest =>
    if c == '\"' then some (⟨acc.reverse⟩, rest)
    else if c == '\\' then
      match rest with
      | [] => none
      | e :: rest1 =>
        if e == '\"' then parseJsonStringAux fuel ('\"' :: acc) rest1
        else if e == '\\' then parseJsonStringAux fuel ('\\' :: acc) rest1
        else if e == '/' then parseJsonStringAux fuel ('/' :: acc) rest1
        else if e == 'b' then parseJsonStringAux fuel (Char.ofNat 8 :: acc) rest1
        else if e == 'f' then parseJsonStringAux fuel (Char.ofNat 12 :: acc) rest1
        else if e == 'n' then parseJsonStringAux fuel ('\n' :: acc) rest1
        else if e == 'r' then parseJsonStringAux fuel ('\r' :: acc) rest1
        else if e == 't' then parseJsonStringAux fuel ('\t' :: acc) rest1
        else if e == 'u' then
          match rest1 with
          | h1 :: h2 :: h3 :: h4 :: rest2 =>
            match hexVal h1, hexVal h2, hexVal h3, hexVal h4 with
            | some x1, some x2, some x3, some x4 =>
              parseJsonStringAux fuel
                (Char.ofNat (4096 * x1 + 256 * x2 + 16 * x3 + x4) :: acc) rest2
            | _, _, _, _ => none
          | _ => none
        else none
    else if c.toNat < 32 then none
    else parseJsonStringAux fuel (c :: acc) rest

/-- Parse a JSON number (strict grammar: no leading zeros, no bare dot,
mandatory digits after `.` and the exponent marker). -/
def parseJsonNumber (cs : List Char) : Option (Rat × List Char) :=
  let (neg, cs1) := match cs with
    | '-' :: r => (true, r)
    | _ => (false, cs)
  let intPart : Option (List Char × List Char) :=
    match cs1 with
    | '0' :: r => some (['0'], r)
    | c :: r =>
      if isDigit c && !(c == '0') then
        let (ds, rest) := spanChars isDigit r
        some (c :: ds, rest)
      else none
    | [] => none
  match intPart with
  | none => none
  | some (ids, rest1) =>
    let fracPart : Option (List Char × List Char) :=
      match rest1 with
      | '.' :: r =>
        let (ds, rr) := spanChars isDigit r
        if ds.isEmpty then none else some (ds, rr)
      | _ => some ([], rest1)
    match fracPart with
    | none => none
    | some (fds, rest2) =>
      let expPart : Option (Rat × List Char) :=
        match rest2 with
        | e :: r =>
          if e == 'e' || e == 'E' then
            let (es, r1) := parseSign r
            let (eds, r2) := spanChars isDigit r1
            if eds.isEmpty then none
            else if es == 1 then some ((10 : Rat) ^ digitsVal eds, r2)
            else some (1 / (10 : Rat) ^ digitsVal eds, r2)
          else some (1, rest2)
        | [] => some (1, rest2)
      match expPart with
      | none => none
      | some (scale, rest3) =>
        let mag : Rat :=
          ((digitsVal ids : Rat) +
            (digitsVal fds : Rat) / (10 : Rat) ^ fds.length) * scale
        some ((if neg then -mag else mag), rest3)

/-- Literal-prefix matcher. -/
def stripLit (lit : List Char) (cs : List Char) : Option (List Char) :=
  if cs.take lit.length == lit then some (cs.drop lit.length) else none

mutual

/-- Parse one JSON value (after skipping leading whitespace). -/
def parseJsonValue : Nat → List Char → Option (JSVal × List Char)
  | 0, _ => none
  | fuel + 1, cs =>
    match jsonSkip cs with
    | [] => none
    | c :: rest =>
      if c == 'n' then (stripLit ['u', 'l', 'l'] rest).map (.null, ·)
      else if c == 't' then (stripLit ['r', 'u', 'e'] rest).map (.bool true, ·)
      else if c == 'f' then (stripLit ['a', 'l', 's', 'e'] rest).map (.bool false, ·)
      else if c == '\"' then
        (parseJsonStringAux (rest.length + 1) [] rest).map fun p => (.str p.1, p.2)
      else if c == '[' then
        match jsonSkip rest with
        | ']' :: r2 => some (.arr .nil, r2)
        | _ => (parseJsonElems fuel rest).map fun p => (.arr p.1, p.2)
      else if c.toNat == 0x7b then
        match jsonSkip rest with
        | c2 :: r3 =>
          if c2.toNat == 0x7d then some (.obj .nil, r3)
          else (parseJsonMembers fuel rest).map fun p => (.obj p.1, p.2)
        | [] => none
      else (parseJsonNumber (c :: rest)).map fun p => (.num p.1, p.2)
  termination_by structural fuel => fuel

/-- Parse the elements of a non-empty array, including the closing bracket. -/
def parseJsonElems : Nat → List Char → Option (JArr × List Char)
  | 0, _ => none
  | fuel + 1, cs =>
    match parseJsonValue fuel cs with
    | none => none
    | some (v, rest) =>
      match jsonSkip rest with
      | ',' :: r2 => (parseJsonElems fuel r2).map fun p => (.cons v p.1, p.2)
      | ']' :: r2 => some (.cons v .nil, r2)
      | _ => none
  termination_by structural fuel => fuel

/-- Parse the members of a non-empty object, including the closing brace. -/
def parseJsonMembers : Nat → List Char → Option (JObj × List Char)
  | 0, _ => none
  | fuel + 1, cs =>
    match jsonSkip cs with
    | '\"' :: rest =>
      match parseJsonStringAux (rest.length + 1) [] rest with
      | none => none
      | some (k, r1) =>
        match jsonSkip r1 with
        | ':' :: r2 =>
          match parseJsonValue fuel r2 with
          | none => none
          | some (v, r3) =>
            match jsonSkip r3 with
            | ',' :: r4 => (parseJsonMembers fuel r4).map fun p => (.cons k v p.1, p.2)
            | c5 :: r4 => if c5.toNat == 0x7d then some (.cons k v .nil, r4) else none
            | [] => none
        | _ => none
    | _ => none
  termination_by structural fuel => fuel

end

/-- `JSON.parse` on a string: parse one value, allow trailing whitespace
only.  `none` models a thrown `SyntaxError`. -/
def jsonParse (s : String) : Option JSVal :=
  match parseJsonValue (4 * s.data.length + 4) s.data with
  | some (v, rest) => if (jsonSkip rest).isEmpty then some v else none
  | none => none

/-! ## Objects, property access, sanitization -/

/-- Walk an object's members keeping the last value bound to `k`
(`JSON.parse` keeps the last duplicate key, and property access then sees
that value). -/
def objGetAux (k : String) (acc : JSVal) : JObj → JSVal
  | .nil => acc
  | .cons key v t => objGetAux k (if key == k then v else acc) t

/-- JavaScript property access `j.k` for the values reachable here:
`undefined` on non-objects (primitives box; arrays lack these keys).
Access on `null`/`undefined` throws and is handled at its call sites. -/
def getField (j : JSVal) (k : String) : JSVal :=
  match j with
  | .obj ms => objGetAux k .undefined ms
  | _ => .undefined

/-- Build an object from a key/value list. -/
def jobjOf : List (String × JSVal) → JObj
  | [] => .nil
  | (k, v) :: rest => .cons k v (jobjOf rest)

/-- The router's `sanitize`: strings go through `sanitizeHtml` (modelled as
the parameter `san`, an external library call); anything else is returned
unchanged. -/
def sanitizeVal (san : String → String) : JSVal → JSVal
  | .str s => .str (san s)
  | v => v

/-! ## The payment ledger (Mongo `Payment` collection) -/

/-- One persisted `Payment` document (`src/unnamed` PaymentSchema plus the
`tripName` key the handlers put inside `customer`).  `amount` is the
`parseFloat` result (`none` = `NaN`); `customer` is the object value the
handler assembled. -/
structure PaymentRecord where
  paymentType : String
  merchant_id : JSVal := .undefined
  order_id : JSVal
  payment_id : JSVal := .undefined
  amount : Option Rat
  currency : JSVal
  status : String
  md5sig : JSVal := .undefined
  customer : JSVal
deriving DecidableEq, Repr

/-- An HTTP JSON response: status code plus the `success`/`status`/`error`
fields the router actually sends. -/
structure Resp where
  code : Nat
  success : Bool
  status : Option String := none
  error : Option String := none
deriving DecidableEq, Repr

/-! ## `POST /notify/payhere` -/

/-- Body of a PayHere server-to-server notification (absent key =
`undefined`). -/
structure NotifyBody where
  merchant_id : JSVal := .undefined
  order_id : JSVal := .undefined
  payment_id : JSVal := .undefined
  payhere_amount : JSVal := .undefined
  payhere_currency : JSVal := .undefined
  status_code : JSVal := .undefined
  md5sig : JSVal := .undefined
  custom_1 : JSVal := .undefined
deriving DecidableEq, Repr

/-- The handler's required-field check: `!merchant_id || !order_id || ...`
negated, i.e. all seven fields truthy. -/
def notifyRequiredOk (b : NotifyBody) : Bool :=
  truthy b.merchant_id && truthy b.order_id && truthy b.payment_id &&
    truthy b.payhere_amount && truthy b.payhere_currency &&
    truthy b.status_code && truthy b.md5sig

/-- `localSignatureInput`: the template literal concatenating the five
notification fields and the upper-cased MD5 of the merchant secret. -/
def notifySigInput (secret : String) (b : NotifyBody) : String :=
  jsToString b.merchant_id ++ jsToString b.order_id ++
    jsToString b.payhere_amount ++ jsToString b.payhere_currency ++
    jsToString b.status_code ++ md5HexUpper secret

/-- `localSignature`: upper-cased MD5 hex of `localSignatureInput`. -/
def notifyLocalSignature (secret : String) (b : NotifyBody) : String :=
  md5HexUpper (notifySigInput secret b)

/-- JavaScript strict equality of a known string against a body value, as
in `localSignature !== md5sig` (negated). -/
def strictEqStr (s : String) (v : JSVal) : Bool :=
  match v with
  | .str t => s == t
  | _ => false

/-- The `customer` value after the `try/catch` around `JSON.parse(custom_1)`:
falsy `custom_1` keeps the initial `{}`; a parse failure is caught and also
keeps `{}`; a parsed `null` makes the subsequent property access throw, so
the caught state keeps the already-assigned `null`; otherwise the eleven
sanitized fields are assembled. -/
def notifyCustomer (san : String → String) (v : JSVal) : JSVal :=
  if truthy v then
    match jsonParse (jsToString v) with
    | none => .obj .nil
    | some .null => .null
    | some j =>
      .obj (jobjOf
        [("first_name", sanitizeVal san (getField j "first_name")),
         ("last_name", sanitizeVal san (getField j "last_name")),
         ("email", sanitizeVal san (getField j "email")),
         ("phone", sanitizeVal san (getField j "phone")),
         ("address", sanitizeVal san (getField j "address")),
         ("city", sanitizeVal san (getField j "city")),
         ("country", sanitizeVal san (getField j "country")),
         ("delivery_address", sanitizeVal san (getField j "delivery_address")),
         ("delivery_city", sanitizeVal san (getField j "delivery_city")),
         ("delivery_country", sanitizeVal san (getField j "delivery_country")),
         ("tripName", sanitizeVal san (getField j "tripName"))])
  else .obj .nil

/-- The status chain of the notify handler, as a standalone mapping:
`2 → success, 0 → pending, -1 → cancelled, -2 → failed, otherwise unknown`,
each comparison being JavaScript `==`. -/
def payhereStatusOf (v : JSVal) : String :=
  if looseEqNum v 2 then "success"
  else if looseEqNum v 0 then "pending"
  else if looseEqNum v (-1) then "cancelled"
  else if looseEqNum v (-2) then "failed"
  else "unknown"

/-- The document `new Payment({...})` saved on a verified success
notification. -/
def mkNotifyRecord (b : NotifyBody) (customer : JSVal) : PaymentRecord :=
  { paymentType := "PayHere"
    merchant_id := b.merchant_id
    order_id := b.order_id
    payment_id := b.payment_id
    amount := jsParseFloat (jsToString b.payhere_amount)
    currency := b.payhere_currency
    status := "success"
    md5sig := b.md5sig
    customer := customer }

/-- Mongo `Payment.findOne({ order_id, paymentType: 'PayHere' })` over the
ledger list. -/
def findPayment (db : List PaymentRecord) (orderId : JSVal) (ptype : String) :
    Option PaymentRecord :=
  db.find? fun r => decide (r.order_id = orderId ∧ r.paymentType = ptype)

/-- Result of one notify-handler run: response, ledger afterwards, and the
handler's local `status` variable (`""` on the paths that return before it
is assigned). -/
structure NotifyOut where
  resp : Resp
  db : List PaymentRecord
  statusVar : String
deriving DecidableEq, Repr

/-- 400 `Missing required fields`. -/
def respMissing : Resp :=
  { code := 400, success := false, error := some "Missing required fields" }

/-- 500 `Merchant secret not configured`. -/
def respNoSecret : Resp :=
  { code := 500, success := false, error := some "Merchant secret not configured" }

/-- 400 `Invalid signature`. -/
def respBadSig : Resp :=
  { code := 400, success := false, error := some "Invalid signature" }

/-- 200 `already_processed`. -/
def respAlready : Resp :=
  { code := 200, success := true, status := some "already_processed" }

/-- 200 `notified`. -/
def respNotified : Resp :=
  { code := 200, success := true, status := some "notified" }

/-- `POST /notify/payhere` (PaymentRouter.js lines 183-302): validate
required fields, recompute and compare the MD5 signature, parse `custom_1`
defensively, then run the status chain; only the `status_code == 2` branch
touches the ledger, and only after `findOne` comes back empty. -/
def notifyPayhere (san : String → String) (secret : Option String)
    (db : List PaymentRecord) (b : NotifyBody) : NotifyOut :=
  if !notifyRequiredOk b then ⟨respMissing, db, ""⟩
  else
    match secret with
    | none => ⟨respNoSecret, db, ""⟩
    | some sec =>
      if !strictEqStr (notifyLocalSignature sec b) b.md5sig then
        ⟨respBadSig, db, ""⟩
      else
        let customer := notifyCustomer san b.custom_1
        if looseEqNum b.status_code 2 then
          match findPayment db b.order_id "PayHere" with
          | some _ => ⟨respAlready, db, "success"⟩
          | none => ⟨respNotified, db ++ [mkNotifyRecord b customer], "success"⟩
        else ⟨respNotified, db, payhereStatusOf b.status_code⟩

/-! ## `JSON.stringify` (used for `custom_1` in the initiate route) -/

/-- Escape one character for a JSON string literal. -/
def jsonEscapeChar (c : Char) : List Char :=
  if c == '\"' then ['\\', '\"']
  else if c == '\\' then ['\\', '\\']
  else if c == '\n' then ['\\', 'n']
  else if c == '\r' then ['\\', 'r']
  else if c == '\t' then ['\\', 't']
  else if c.toNat == 8 then ['\\', 'b']
  else if c.toNat == 12 then ['\\', 'f']
  else if c.toNat < 32 then
    ['\\', 'u', '0', '0', hexDigit (c.toNat / 16), hexDigit (c.toNat % 16)]
  else [c]

/-- A JSON string literal for `s`. -/
def jsonQuote (s : String) : String :=
  "\"" ++ ⟨s.data.flatMap jsonEscapeChar⟩ ++ "\""

/-- Opening brace as a string. -/
def obrace : String := ⟨[Char.ofNat 0x7b]⟩

/-- Closing brace as a string. -/
def cbrace : String := ⟨[Char.ofNat 0x7d]⟩

mutual

/-- `JSON.stringify` on a value; `none` models the `undefined` result
(undefined input), which as an object member means the key is omitted. -/
def jsonStringify : JSVal → Option String
  | .undefined => none
  | .null => some "null"
  | .bool b => some (if b then "true" else "false")
  | .num q => some (ratToString q)
  | .nan => some "null"
  | .str s => some (jsonQuote s)
  | .arr es => some ("[" ++ stringifyElems es ++ "]")
  | .obj ms => some (obrace ++ stringifyMembers true ms ++ cbrace)
  termination_by structural v => v

/-- Array elements: `undefined` renders as `null` inside arrays. -/
def stringifyElems : JArr → String
  | .nil => ""
  | .cons v .nil => (jsonStringify v).getD "null"
  | .cons v vs => (jsonStringify v).getD "null" ++ "," ++ stringifyElems vs
  termination_by structural a => a

/-- Object members: keys with `undefined` values are omitted. -/
def stringifyMembers (first : Bool) : JObj → String
  | .nil => ""
  | .cons k v t =>
    match jsonStringify v with
    | none => stringifyMembers first t
    | some sv =>
      (if first then "" else ",") ++ jsonQuote k ++ ":" ++ sv ++
        stringifyMembers false t
  termination_by structural o => o

end

/-! ## `POST /initiate/payhere` -/

/-- Body of an initiate request. -/
structure InitiateBody where
  merchant_id : JSVal := .undefined
  order_id : JSVal := .undefined
  amount : JSVal := .undefined
  currency : JSVal := .undefined
  items : JSVal := .undefined
  return_url : JSVal := .undefined
  cancel_url : JSVal := .undefined
  notify_url : JSVal := .undefined
  first_name : JSVal := .undefined
  last_name : JSVal := .undefined
  email : JSVal := .undefined
  phone : JSVal := .undefined
  address : JSVal := .undefined
  city : JSVal := .undefined
  country : JSVal := .undefined
  delivery_address : JSVal := .undefined
  delivery_city : JSVal := .undefined
  delivery_country : JSVal := .undefined
deriving DecidableEq, Repr

/-- The initiate route's required-field check (ten of the eighteen
fields). -/
def initiateRequiredOk (b : InitiateBody) : Bool :=
  truthy b.merchant_id && truthy b.order_id && truthy b.amount &&
    truthy b.currency && truthy b.items && truthy b.return_url &&
    truthy b.cancel_url && truthy b.notify_url && truthy b.first_name &&
    truthy b.email

/-- `parseFloat(amount).toFixed(2)`: the formatted amount string the hash
is computed over. -/
def initiateFormattedAmount (amount : JSVal) : String :=
  toFixed2 (jsParseFloat (jsToString amount))

/-- `hashString`: JavaScript `+` over sanitized merchant id, order id,
formatted amount, currency and the upper-cased MD5 of the secret.  (After
the formatted amount, a string, joins the chain, the result is a string.) -/
def initiateHashString (san : String → String) (secret : String)
    (b : InitiateBody) : String :=
  jsToString
    (jsAdd
      (jsAdd
        (jsAdd
          (jsAdd (sanitizeVal san b.merchant_id) (sanitizeVal san b.order_id))
          (.str (initiateFormattedAmount b.amount)))
        (sanitizeVal san b.currency))
      (.str (md5HexUpper secret)))

/-- The `hash` field the initiate route returns. -/
def initiateHash (san : String → String) (secret : String)
    (b : InitiateBody) : String :=
  md5HexUpper (initiateHashString san secret b)

/-- The `custom_1` JSON string the initiate route returns. -/
def initiateCustom1 (san : String → String) (b : InitiateBody) : String :=
  (jsonStringify (.obj (jobjOf
    [("first_name", sanitizeVal san b.first_name),
     ("last_name", sanitizeVal san b.last_name),
     ("email", sanitizeVal san b.email),
     ("phone", sanitizeVal san b.phone),
     ("address", sanitizeVal san b.address),
     ("city", sanitizeVal san b.city),
     ("country", sanitizeVal san b.country),
     ("delivery_address", sanitizeVal san b.delivery_address),
     ("delivery_city", sanitizeVal san b.delivery_city),
     ("delivery_country", sanitizeVal san b.delivery_country),
     ("tripName", sanitizeVal san b.items)]))).getD "undefined"

/-- Result of an initiate run: the response plus its `hash` and `custom_1`
fields when present. -/
structure InitOut where
  resp : Resp
  hash : Option String := none
  custom_1 : Option String := none
deriving DecidableEq, Repr

/-- 500 `PayHere merchant secret not configured`. -/
def respNoSecretInit : Resp :=
  { code := 500, success := false,
    error := some "PayHere merchant secret not configured" }

/-- `POST /initiate/payhere` (PaymentRouter.js lines 67-181): validate,
sanitize, build the checkout hash over merchant id + order id + formatted
amount + currency + hashed secret, and return it with the `custom_1`
context blob.  No ledger access. -/
def initiatePayhere (san : String → String) (secret : Option String)
    (b : InitiateBody) : InitOut :=
  if !initiateRequiredOk b then ⟨respMissing, none, none⟩
  else
    match secret with
    | none => ⟨respNoSecretInit, none, none⟩
    | some sec =>
      ⟨{ code := 200, success := true, status := some "initiated" },
        some (initiateHash san sec b), some (initiateCustom1 san b)⟩

/-! ## Checkout-session creation (`POST /create-checkout-session/...`) -/

/-- Body of a checkout-session request. -/
structure SessionBody where
  tripName : JSVal := .undefined
  amount : JSVal := .undefined
  quantity : JSVal := .undefined
  successUrl : JSVal := .undefined
  cancelUrl : JSVal := .undefined
  customer : JSVal := .undefined
deriving DecidableEq, Repr

/-- The PayPal `OrdersCreateRequest` body assembled by the active router's
PayPal route. -/
structure PaypalOrderReq where
  intent : String
  currency_code : String
  value : String
  description : JSVal
  quantity : JSVal
  return_url : JSVal
  cancel_url : JSVal
  user_action : String
deriving DecidableEq, Repr

/-- The Stripe `checkout.sessions.create` arguments assembled by the Stripe
route. -/
structure StripeSessionReq where
  currency : String
  name : JSVal
  unit_amount : JSVal
  quantity : JSVal
  success_url : JSVal
  cancel_url : JSVal
deriving DecidableEq, Repr

/-- What a session-creation handler does before any processor reply comes
back: reject the request with a client error, or delegate to the processor
SDK with the given request body. -/
inductive SessionOutcome where
  | reject (code : Nat) (error : String)
  | paypalCall (req : PaypalOrderReq)
  | stripeCall (req : StripeSessionReq)
deriving DecidableEq, Repr

/-- `POST /create-checkout-session/paypal` (PaymentRouter.js lines
304-336): destructures the body and immediately builds the PayPal order —
`value` is `(amount / 100).toFixed(2)` — with no field validation of any
kind before the SDK call. -/
def createPaypalOrder (san : String → String) (b : SessionBody) :
    SessionOutcome :=
  .paypalCall
    { intent := "AUTHORIZE"
      currency_code := "USD"
      value := toFixed2 ((toNumber b.amount).map (· / 100))
      description := sanitizeVal san b.tripName
      quantity := b.quantity
      return_url := sanitizeVal san b.successUrl
      cancel_url := sanitizeVal san b.cancelUrl
      user_action := "CONTINUE" }

/-- `Number.isInteger(v) && !(v <= 0)`: the positivity/typing test the
Stripe route applies to `amount` and `quantity`. -/
def posIntVal : JSVal → Bool
  | .num q => q.den == 1 && 0 < q
  | _ => false

/-- The Stripe route's required-field truthiness check. -/
def sessionRequiredOk (b : SessionBody) : Bool :=
  truthy b.tripName && truthy b.amount && truthy b.quantity &&
    truthy b.successUrl && truthy b.cancelUrl

/-- `POST /create-checkout-session/stripe` (the unnamed router file, lines
620-684): checks the five fields for truthiness, then `amount` and
`quantity` for positive-integer type, then delegates with the amount in
cents. -/
def createStripeSession (b : SessionBody) : SessionOutcome :=
  if !sessionRequiredOk b then
    .reject 400
      "Missing required fields: tripName, amount, quantity, successUrl, cancelUrl"
  else if !posIntVal b.amount then
    .reject 400 "Invalid amount: must be a positive integer in cents"
  else if !posIntVal b.quantity then
    .reject 400 "Invalid quantity: must be a positive integer"
  else
    .stripeCall
      { currency := "usd"
        name := b.tripName
        unit_amount := b.amount
        quantity := b.quantity
        success_url := b.successUrl
        cancel_url := b.cancelUrl }

/-! ## `POST /capture-paypal-payment` -/

/-- Body of a capture request. -/
structure CaptureBody where
  orderId : JSVal := .undefined
  tripName : JSVal := .undefined
  customer : JSVal := .undefined
  amount : JSVal := .undefined
deriving DecidableEq, Repr

/-- `purchase_units[0].amount` of a PayPal order reply. -/
structure PaypalAmount where
  currency_code : JSVal := .undefined
  value : JSVal := .undefined
deriving DecidableEq, Repr

/-- The slice of a PayPal `OrdersGet`/`OrdersAuthorize` reply the capture
handler reads (`result.id`, `result.status`,
`result.purchase_units[0].amount`; `none` models a reply without amount
data). -/
structure PaypalOrderInfo where
  id : JSVal
  status : String
  amount : Option PaypalAmount
deriving DecidableEq, Repr

/-- The sanitized customer object the capture handler builds (eight keys),
or `{}` when the body's `customer` is falsy. -/
def captureCustomer (san : String → String) (customer tripName : JSVal) :
    JSVal :=
  if truthy customer then
    .obj (jobjOf
      [("first_name", sanitizeVal san (getField customer "first_name")),
       ("last_name", sanitizeVal san (getField customer "last_name")),
       ("email", sanitizeVal san (getField customer "email")),
       ("phone", sanitizeVal san (getField customer "phone")),
       ("address", sanitizeVal san (getField customer "address")),
       ("city", sanitizeVal san (getField customer "city")),
       ("country", sanitizeVal san (getField customer "country")),
       ("tripName", sanitizeVal san tripName)])
  else .obj .nil

/-- 400 `Order already processed`. -/
def respAlreadyCaptured : Resp :=
  { code := 400, success := false, error := some "Order already processed" }

/-- 500 surfaced by the catch block when a reply omits amount data. -/
def respCaptureFailed : Resp :=
  { code := 500, success := false,
    error := some "Failed to process PayPal payment" }

/-- The `Payment` document the capture handler saves from a reply.  The
guard has already ensured `amountObj.value` is truthy, so the
`|| (amount / 100).toFixed(2)` fallback never contributes. -/
def mkCaptureRecord (san : String → String) (b : CaptureBody)
    (info : PaypalOrderInfo) (a : PaypalAmount) : PaymentRecord :=
  { paymentType := "PayPal"
    order_id := b.orderId
    payment_id := info.id
    amount := jsParseFloat (jsToString a.value)
    currency := a.currency_code
    status := info.status
    customer := captureCustomer san b.customer b.tripName }

/-- Save path shared by the approved/completed branch and the authorize
branch: 500 (ledger untouched) when the reply lacks amount data, else
append the record and acknowledge with its status. -/
def captureSave (san : String → String) (db : List PaymentRecord)
    (b : CaptureBody) (info : PaypalOrderInfo) : Resp × List PaymentRecord :=
  match info.amount with
  | none => (respCaptureFailed, db)
  | some a =>
    if !truthy a.currency_code || !truthy a.value then (respCaptureFailed, db)
    else
      ({ code := 200, success := true, status := some info.status },
        db ++ [mkCaptureRecord san b info a])

/-- `POST /capture-paypal-payment` (PaymentRouter.js lines 338-450): refuse
when a PayPal record for this `orderId` already exists; otherwise look the
order up, persist it when APPROVED/COMPLETED, and otherwise persist the
authorize reply.  `orderInfo`/`authInfo` are the processor's replies to the
two SDK calls. -/
def capturePaypal (san : String → String) (orderInfo authInfo : PaypalOrderInfo)
    (db : List PaymentRecord) (b : CaptureBody) : Resp × List PaymentRecord :=
  match findPayment db b.orderId "PayPal" with
  | some _ => (respAlreadyCaptured, db)
  | none =>
    if orderInfo.status == "APPROVED" || orderInfo.status == "COMPLETED" then
      captureSave san db b orderInfo
    else
      captureSave san db b authInfo

/-! ## Derived notions used by the statements -/

/-- Run the notify handler `n` times with the same body, threading the
ledger through (sequential replay of one notification). -/
def iterateNotify (san : String → String) (sec : String) (b : NotifyBody) :
    Nat → List PaymentRecord → List PaymentRecord
  | 0, db => db
  | n + 1, db => iterateNotify san sec b n (notifyPayhere san (some sec) db b).db

/-- Number of PayHere `success` records for a given order id. -/
def successCount (db : List PaymentRecord) (oid : JSVal) : Nat :=
  (db.filter fun r =>
    decide (r.order_id = oid ∧ r.paymentType = "PayHere" ∧ r.status = "success")).length

/-- Two records fall on the same `(orderId, paymentType)` key. -/
def keyClash (r1 r2 : PaymentRecord) : Prop :=
  r1.order_id = r2.order_id ∧ r1.paymentType = r2.paymentType

/-- The ledger has at most one record per `(orderId, paymentType)` key —
the discipline the existence checks enforce. -/
def noDupKeys (db : List PaymentRecord) : Prop :=
  db.Pairwise fun r1 r2 => ¬keyClash r1 r2

/-- The statuses under which a record counts as a completed payment
(`success` from PayHere, `APPROVED`/`COMPLETED` from PayPal). -/
def isCompletedStatus (s : String) : Bool :=
  s == "success" || s == "APPROVED" || s == "COMPLETED"

/-- At most one completed-payment record per `(orderId, paymentType)`
key. -/
def atMostOneSuccess (db : List PaymentRecord) : Prop :=
  ∀ oid pt,
    (db.filter fun r =>
      decide (r.order_id = oid ∧ r.paymentType = pt ∧
        isCompletedStatus r.status = true)).length ≤ 1

/-! ## Concrete inputs for witnesses and counterexamples -/

/-- A PayHere notification body before its signature is filled in. -/
def wNotifyBase : NotifyBody :=
  { merchant_id := .str "M1", order_id := .str "O1", payment_id := .str "P1",
    payhere_amount := .str "1000.00", payhere_currency := .str "LKR",
    status_code := .str "2", custom_1 := .str "not-json" }

/-- The same notification carrying its correctly recomputed signature. -/
def wNotify : NotifyBody :=
  { wNotifyBase with md5sig := .str (notifyLocalSignature "SECRET" wNotifyBase) }

/-- A pending (`status_code = "0"`) notification, correctly signed. -/
def wNotifyPendingBase : NotifyBody :=
  { wNotifyBase with status_code := .str "0" }

/-- The pending notification with its signature. -/
def wNotifyPending : NotifyBody :=
  { wNotifyPendingBase with
    md5sig := .str (notifyLocalSignature "SECRET" wNotifyPendingBase) }

/-- A correctly signed notification whose `status_code` is the empty
array. -/
def wNotifyArrBase : NotifyBody :=
  { wNotifyBase with status_code := .arr .nil }

/-- The array-status notification with its signature. -/
def wNotifyArr : NotifyBody :=
  { wNotifyArrBase with
    md5sig := .str (notifyLocalSignature "SECRET" wNotifyArrBase) }

/-- A notification whose signature field does not match. -/
def wNotifyBadSig : NotifyBody :=
  { wNotifyBase with md5sig := .str "X" }

/-- An initiate request for the transaction `wNotify` reports (order `O1`,
amount `1000` formatted to `1000.00`, currency `LKR`). -/
def wInit : InitiateBody :=
  { merchant_id := .str "M1", order_id := .str "O1", amount := .str "1000",
    currency := .str "LKR", items := .str "Trip", return_url := .str "r",
    cancel_url := .str "c", notify_url := .str "n", first_name := .str "A",
    email := .str "e" }

/-- The notification for that transaction, presenting the hash the initiate
route returned as its `md5sig`. -/
def wNotifyInitSig : NotifyBody :=
  { wNotifyBase with md5sig := .str (initiateHash id "SECRET" wInit) }

/-- A notification whose `status_code` is the number `0`. -/
def wNotifyNum0 : NotifyBody :=
  { wNotifyBase with status_code := .num 0 }

/-- A completed PayPal order reply. -/
def wOrderInfo : PaypalOrderInfo :=
  { id := .str "PPID", status := "COMPLETED",
    amount := some { currency_code := .str "USD", value := .str "25.99" } }

/-- A capture request body. -/
def wCapture : CaptureBody :=
  { orderId := .str "OP1", tripName := .str "Trip", customer := .obj .nil,
    amount := .num 2599 }

/-- A checkout-session body: 2599 cents for one trip. -/
def wSession : SessionBody :=
  { tripName := .str "Trip", amount := .num 2599, quantity := .num 1,
    successUrl := .str "s", cancelUrl := .str "c" }

/-- A checkout-session body with every field absent. -/
def wSessionEmpty : SessionBody := {}

/-! ## Helper lemmas -/

/-- `findOne` misses exactly when no record carries the queried key. -/
theorem findPayment_none_iff {db : List PaymentRecord} {oid : JSVal}
    {pt : String} :
    findPayment db oid pt = none ↔
      ∀ r ∈ db, ¬(r.order_id = oid ∧ r.paymentType = pt) := by
  unfold findPayment
  rw [List.find?_eq_none]
  simp

/-- After appending a fresh record with the queried key, `findOne` returns
it. -/
theorem findPayment_append_singleton {db : List PaymentRecord}
    {r : PaymentRecord} {oid : JSVal} {pt : String}
    (h : findPayment db oid pt = none) (hr : r.order_id = oid)
    (hp : r.paymentType = pt) :
    findPayment (db ++ [r]) oid pt = some r := by
  unfold findPayment at h ⊢
  rw [List.find?_append, h]
  simp [List.find?, hr, hp]

/-- Appending a record whose key `findOne` just missed preserves
key-uniqueness. -/
theorem noDupKeys_append {db : List PaymentRecord} {r : PaymentRecord}
    (h : noDupKeys db)
    (hf : findPayment db r.order_id r.paymentType = none) :
    noDupKeys (db ++ [r]) := by
  rw [noDupKeys, List.pairwise_append]
  refine ⟨h, by simp, ?_⟩
  intro a ha b hb
  simp only [List.mem_singleton] at hb
  subst hb
  intro hk
  exact (findPayment_none_iff.mp hf) a ha ⟨hk.1, hk.2⟩

/-- Key-uniqueness bounds the completed-payment count per key by one. -/
theorem atMostOneSuccess_of_noDupKeys {db : List PaymentRecord}
    (h : noDupKeys db) : atMostOneSuccess db := by
  intro oid pt
  set p : PaymentRecord → Bool := fun r =>
    decide (r.order_id = oid ∧ r.paymentType = pt ∧
      isCompletedStatus r.status = true) with hp
  have hpair : (db.filter p).Pairwise (fun r1 r2 => ¬keyClash r1 r2) :=
    h.filter _
  cases hl : db.filter p with
  | nil => simp [successCount, hl, hp]
  | cons a t =>
    cases t with
    | nil => simp [hl, hp]
    | cons b t2 =>
      exfalso
      rw [hl] at hpair
      have hab : ¬keyClash a b := (List.pairwise_cons.mp hpair).1 b (by simp)
      have hpa : p a = true :=
        List.of_mem_filter (hl ▸ (List.mem_cons_self a _ : a ∈ a :: b :: t2))
      have hpb : p b = true :=
        List.of_mem_filter (hl ▸ (by simp : b ∈ a :: b :: t2))
      rw [hp] at hpa hpb
      simp only [decide_eq_true_eq] at hpa hpb
      exact hab ⟨hpa.1.trans hpb.1.symm, hpa.2.1.trans hpb.2.1.symm⟩

/-- Ledger effect of one notify run: unchanged, or one fresh success record
appended under a failed existence check. -/
theorem notify_db_cases (san : String → String) (secret : Option String)
    (db : List PaymentRecord) (b : NotifyBody) :
    (notifyPayhere san secret db b).db = db ∨
    ((notifyPayhere san secret db b).db =
        db ++ [mkNotifyRecord b (notifyCustomer san b.custom_1)] ∧
      findPayment db b.order_id "PayHere" = none) := by
  cases hreq : notifyRequiredOk b
  · left; simp [notifyPayhere, hreq]
  cases secret with
  | none => left; simp [notifyPayhere, hreq]
  | some sec =>
    cases hs : strictEqStr (notifyLocalSignature sec b) b.md5sig
    · left; simp [notifyPayhere, hreq, hs]
    cases hc : looseEqNum b.status_code 2
    · left; simp [notifyPayhere, hreq, hs, hc]
    cases hf : findPayment db b.order_id "PayHere" with
    | some r => left; simp [notifyPayhere, hreq, hs, hc, hf]
    | none => right; exact ⟨by simp [notifyPayhere, hreq, hs, hc, hf], rfl⟩

/-- Ledger effect of one capture run: unchanged, or one record appended
under a failed existence check. -/
theorem capture_db_cases (san : String → String)
    (orderInfo authInfo : PaypalOrderInfo) (db : List PaymentRecord)
    (bc : CaptureBody) :
    (capturePaypal san orderInfo authInfo db bc).2 = db ∨
    (∃ info a,
      (capturePaypal san orderInfo authInfo db bc).2 =
        db ++ [mkCaptureRecord san bc info a] ∧
      findPayment db bc.orderId "PayPal" = none) := by
  cases hf : findPayment db bc.orderId "PayPal" with
  | some r => left; simp [capturePaypal, hf]
  | none =>
    cases hst : (orderInfo.status == "APPROVED" || orderInfo.status == "COMPLETED") with
    | true =>
      cases ha : orderInfo.amount with
      | none => left; simp [capturePaypal, captureSave, hf, hst, ha]
      | some a =>
        cases hg : (!truthy a.currency_code || !truthy a.value) with
        | true => left; simp [capturePaypal, captureSave, hf, hst, ha, hg]
        | false =>
          right
          exact ⟨orderInfo, a,
            by simp [capturePaypal, captureSave, hf, hst, ha, hg], rfl⟩
    | false =>
      cases ha : authInfo.amount with
      | none => left; simp [capturePaypal, captureSave, hf, hst, ha]
      | some a =>
        cases hg : (!truthy a.currency_code || !truthy a.value) with
        | true => left; simp [capturePaypal, captureSave, hf, hst, ha, hg]
        | false =>
          right
          exact ⟨authInfo, a,
            by simp [capturePaypal, captureSave, hf, hst, ha, hg], rfl⟩

/-- Reaching the `pending` branch requires a truthy `status_code` loosely
equal to `0`. -/
theorem notify_pending_inv (san : String → String) (secret : Option String)
    (db : List PaymentRecord) (b : NotifyBody)
    (hpend : (notifyPayhere san secret db b).statusVar = "pending") :
    truthy b.status_code = true ∧ looseEqNum b.status_code 0 = true := by
  cases hreq : notifyRequiredOk b
  · simp [notifyPayhere, hreq] at hpend
  cases secret with
  | none => simp [notifyPayhere, hreq] at hpend
  | some sec =>
    cases hs : strictEqStr (notifyLocalSignature sec b) b.md5sig
    · simp [notifyPayhere, hreq, hs] at hpend
    have htr : truthy b.status_code = true := by
      have h := hreq
      unfold notifyRequiredOk at h
      simp only [Bool.and_eq_true] at h
      exact h.1.2
    cases hc : looseEqNum b.status_code 2
    · simp only [notifyPayhere, hreq, hs, hc] at hpend
      simp at hpend
      refine ⟨htr, ?_⟩
      cases h0 : looseEqNum b.status_code 0
      · cases hm1 : looseEqNum b.status_code (-1)
        · cases hm2 : looseEqNum b.status_code (-2)
          · simp [payhereStatusOf, hc, h0, hm1, hm2] at hpend
          · simp [payhereStatusOf, hc, h0, hm1, hm2] at hpend
        · simp [payhereStatusOf, hc, h0, hm1] at hpend
      · rfl
    · cases hf : findPayment db b.order_id "PayHere" <;>
        simp [notifyPayhere, hreq, hs, hc, hf] at hpend

/-! ## Claims -/

/-- C3: whenever the signature recomputed from the notification fields and
the upper-cased MD5 of the merchant secret does not strictly equal the
supplied `md5sig`, the notify handler responds 400 `Invalid signature` and
leaves the ledger unchanged (no record is created). -/
theorem claim_C3 (san : String → String) (sec : String)
    (db : List PaymentRecord) (b : NotifyBody)
    (hreq : notifyRequiredOk b = true)
    (hsig : strictEqStr (notifyLocalSignature sec b) b.md5sig = false) :
    notifyPayhere san (some sec) db b = ⟨respBadSig, db, ""⟩ := by
  simp [notifyPayhere, hreq, hsig]

/-- Witness for C3 at a concrete forged notification. -/
theorem claim_C3_witness :
    notifyPayhere id (some "SECRET") [] wNotifyBadSig = ⟨respBadSig, [], ""⟩ :=
  claim_C3 id "SECRET" [] wNotifyBadSig (by decide) (by decide)

/-- C6: the notify handler's status mapping is total and deterministic —
`"2" → success`, `"0" → pending`, `"-1" → cancelled`, `"-2" → failed` and
every value loosely equal to none of `2, 0, -1, -2` (for instance `"99"`)
maps to `unknown`; for every payload passing field validation and signature
verification, the handler's status variable is exactly this mapping of
`status_code`. -/
theorem claim_C6 :
    payhereStatusOf (.str "2") = "success" ∧
    payhereStatusOf (.str "0") = "pending" ∧
    payhereStatusOf (.str "-1") = "cancelled" ∧
    payhereStatusOf (.str "-2") = "failed" ∧
    payhereStatusOf (.str "99") = "unknown" ∧
    (∀ v : JSVal, looseEqNum v 2 = false → looseEqNum v 0 = false →
      looseEqNum v (-1) = false → looseEqNum v (-2) = false →
      payhereStatusOf v = "unknown") ∧
    (∀ (san : String → String) (sec : String) (db : List PaymentRecord)
      (b : NotifyBody), notifyRequiredOk b = true →
      strictEqStr (notifyLocalSignature sec b) b.md5sig = true →
      (notifyPayhere san (some sec) db b).statusVar =
        payhereStatusOf b.status_code) := by
  refine ⟨by decide, by decide, by decide, by decide, by decide, ?_, ?_⟩
  · intro v h2 h0 hm1 hm2
    simp [payhereStatusOf, h2, h0, hm1, hm2]
  · intro san sec db b hreq hsig
    cases hc : looseEqNum b.status_code 2 with
    | false => simp [notifyPayhere, hreq, hsig, hc]
    | true =>
      cases hf : findPayment db b.order_id "PayHere" <;>
        simp [notifyPayhere, hreq, hsig, hc, hf, payhereStatusOf]

/-- Witness for C6: the handler-status link at a concrete verified
notification. -/
theorem claim_C6_witness :
    (notifyPayhere id (some "SECRET") [] wNotify).statusVar =
      payhereStatusOf wNotify.status_code :=
  claim_C6.2.2.2.2.2.2 id "SECRET" [] wNotify (by decide) (by decide)

/-- C10: a verified notification whose mapped status is anything other than
`success` writes nothing — the ledger is returned unchanged — and the
response is the 200 acknowledgment `success: true, status: 'notified'`,
which is the handler's acknowledgment, not the payment status. -/
theorem claim_C10 (san : String → String) (sec : String)
    (db : List PaymentRecord) (b : NotifyBody)
    (hreq : notifyRequiredOk b = true)
    (hsig : strictEqStr (notifyLocalSignature sec b) b.md5sig = true)
    (hns : payhereStatusOf b.status_code ≠ "success") :
    notifyPayhere san (some sec) db b =
      ⟨respNotified, db, payhereStatusOf b.status_code⟩ := by
  have hcode : looseEqNum b.status_code 2 = false := by
    cases hc : looseEqNum b.status_code 2
    · rfl
    · exact absurd (by simp [payhereStatusOf, hc]) hns
  simp [notifyPayhere, hreq, hsig, hcode]

/-- Witness for C10 at a concrete verified pending notification. -/
theorem claim_C10_witness :
    notifyPayhere id (some "SECRET") [] wNotifyPending =
      ⟨respNotified, [], payhereStatusOf wNotifyPending.status_code⟩ :=
  claim_C10 id "SECRET" [] wNotifyPending (by decide) (by decide) (by decide)

/-- C8: for amount 2599 (cents), the PayPal order-creation route values the
line item at the string `"25.99"` with currency code `USD` — that is,
`(amount / 100).toFixed(2)` — and the Stripe route passes the 2599 cents
through as `unit_amount` with currency `usd`. -/
theorem claim_C8 :
    createPaypalOrder id wSession =
      .paypalCall
        { intent := "AUTHORIZE", currency_code := "USD", value := "25.99",
          description := .str "Trip", quantity := .num 1,
          return_url := .str "s", cancel_url := .str "c",
          user_action := "CONTINUE" } ∧
    createStripeSession wSession =
      .stripeCall
        { currency := "usd", name := .str "Trip", unit_amount := .num 2599,
          quantity := .num 1, success_url := .str "s",
          cancel_url := .str "c" } := by
  constructor <;> decide

/-- Counterexample to C4 as stated: the PayPal create-checkout-session
route of the active router does not reject a request in which every
required field is absent — it delegates to the processor SDK with
`value = "NaN"` and undefined description, quantity and URLs instead of
returning a 400 client error. -/
theorem claim_C4_counterexample :
    createPaypalOrder id wSessionEmpty =
      .paypalCall
        { intent := "AUTHORIZE", currency_code := "USD", value := "NaN",
          description := .undefined, quantity := .undefined,
          return_url := .undefined, cancel_url := .undefined,
          user_action := "CONTINUE" } := by
  decide

/-- C4 (amended): the Stripe route validates truthiness of the five fields
and positive-integer typing of amount and quantity, rejecting with 400
before delegating, and delegates with the validated body otherwise; the
PayPal route of the active router performs no validation and delegates for
every body. -/
theorem claim_C4 :
    (∀ b : SessionBody, sessionRequiredOk b = false →
      createStripeSession b = .reject 400
        "Missing required fields: tripName, amount, quantity, successUrl, cancelUrl") ∧
    (∀ b : SessionBody, sessionRequiredOk b = true → posIntVal b.amount = false →
      createStripeSession b = .reject 400
        "Invalid amount: must be a positive integer in cents") ∧
    (∀ b : SessionBody, sessionRequiredOk b = true → posIntVal b.amount = true →
      posIntVal b.quantity = false →
      createStripeSession b = .reject 400
        "Invalid quantity: must be a positive integer") ∧
    (∀ b : SessionBody, sessionRequiredOk b = true → posIntVal b.amount = true →
      posIntVal b.quantity = true →
      createStripeSession b = .stripeCall
        { currency := "usd", name := b.tripName, unit_amount := b.amount,
          quantity := b.quantity, success_url := b.successUrl,
          cancel_url := b.cancelUrl }) ∧
    (∀ (san : String → String) (b : SessionBody),
      ∃ r, createPaypalOrder san b = .paypalCall r) := by
  refine ⟨?_, ?_, ?_, ?_, ?_⟩
  · intro b h
    simp [createStripeSession, h]
  · intro b h ha
    simp [createStripeSession, h, ha]
  · intro b h ha hq
    simp [createStripeSession, h, ha, hq]
  · intro b h ha hq
    simp [createStripeSession, h, ha, hq]
  · intro san b
    exact ⟨_, rfl⟩

/-- Witness for C4 (amended) at concrete bodies: the empty body is rejected
by Stripe but delegated by PayPal, and the well-formed body is delegated by
Stripe. -/
theorem claim_C4_witness :
    (createStripeSession wSessionEmpty = .reject 400
      "Missing required fields: tripName, amount, quantity, successUrl, cancelUrl") ∧
    (createStripeSession wSession = .stripeCall
      { currency := "usd", name := .str "Trip", unit_amount := .num 2599,
        quantity := .num 1, success_url := .str "s",
        cancel_url := .str "c" }) ∧
    ∃ r, createPaypalOrder id wSessionEmpty = .paypalCall r :=
  ⟨claim_C4.1 wSessionEmpty (by decide),
   claim_C4.2.2.2.1 wSession (by decide) (by decide) (by decide),
   claim_C4.2.2.2.2 id wSessionEmpty⟩

/-- C7: a verified success notification whose `custom_1` is present but not
valid JSON does not abort — the parse failure is caught, a PaymentRecord
whose customer sub-object is the empty object is persisted, and the handler
answers with the normal 200 `notified` acknowledgment. -/
theorem claim_C7 (san : String → String) (sec : String)
    (db : List PaymentRecord) (b : NotifyBody)
    (hreq : notifyRequiredOk b = true)
    (hsig : strictEqStr (notifyLocalSignature sec b) b.md5sig = true)
    (hcode : looseEqNum b.status_code 2 = true)
    (htr : truthy b.custom_1 = true)
    (hbad : jsonParse (jsToString b.custom_1) = none)
    (hfresh : findPayment db b.order_id "PayHere" = none) :
    notifyPayhere san (some sec) db b =
      ⟨respNotified, db ++ [mkNotifyRecord b (.obj .nil)], "success"⟩ := by
  have hcust : notifyCustomer san b.custom_1 = .obj .nil := by
    simp [notifyCustomer, htr, hbad]
  simp [notifyPayhere, hreq, hsig, hcode, hfresh, hcust]

/-- Witness for C7: the malformed-metadata notification persists one record
with an empty customer object. -/
theorem claim_C7_witness :
    notifyPayhere id (some "SECRET") [] wNotify =
      ⟨respNotified, [mkNotifyRecord wNotify (.obj .nil)], "success"⟩ :=
  claim_C7 id "SECRET" [] wNotify (by decide) (by decide) (by decide)
    (by decide) (by decide) rfl

/-- Counterexample to C9 as stated: the `pending` branch is reachable with
a `status_code` that is not a string at all — the empty array is truthy and
loosely equal to `0`, so a correctly signed notification carrying it
reaches `pending` although it is no non-empty string. -/
theorem claim_C9_counterexample :
    (notifyPayhere id (some "SECRET") [] wNotifyArr).statusVar = "pending" ∧
    wNotifyArr.status_code = .arr .nil := by
  exact ⟨by decide, rfl⟩

/-- C9 (amended): the required-field validation tests falsiness, so a
payload whose `status_code` (or `payhere_amount`) is the number `0` is
rejected 400 `Missing required fields` before signature verification; the
`pending` branch is reachable only for truthy values loosely equal to `0` —
never for a number, since `0` is the only such number and it is falsy; when
`status_code` is a string it must be non-empty (other truthy non-string
values such as an empty array also qualify). -/
theorem claim_C9 :
    (∀ (san : String → String) (secret : Option String)
      (db : List PaymentRecord) (b : NotifyBody), b.status_code = .num 0 →
      notifyPayhere san secret db b = ⟨respMissing, db, ""⟩) ∧
    (∀ (san : String → String) (secret : Option String)
      (db : List PaymentRecord) (b : NotifyBody), b.payhere_amount = .num 0 →
      notifyPayhere san secret db b = ⟨respMissing, db, ""⟩) ∧
    (∀ (san : String → String) (secret : Option String)
      (db : List PaymentRecord) (b : NotifyBody),
      (notifyPayhere san secret db b).statusVar = "pending" →
      truthy b.status_code = true ∧ looseEqNum b.status_code 0 = true ∧
        ∀ q : Rat, b.status_code ≠ .num q) ∧
    (∀ (san : String → String) (secret : Option String)
      (db : List PaymentRecord) (b : NotifyBody) (s : String),
      (notifyPayhere san secret db b).statusVar = "pending" →
      b.status_code = .str s → s ≠ "") := by
  refine ⟨?_, ?_, ?_, ?_⟩
  · intro san secret db b h
    have hreq : notifyRequiredOk b = false := by
      simp [notifyRequiredOk, h, truthy]
    simp [notifyPayhere, hreq]
  · intro san secret db b h
    have hreq : notifyRequiredOk b = false := by
      simp [notifyRequiredOk, h, truthy]
    simp [notifyPayhere, hreq]
  · intro san secret db b hpend
    obtain ⟨htr, h0⟩ := notify_pending_inv san secret db b hpend
    refine ⟨htr, h0, ?_⟩
    intro q heq
    rw [heq] at htr h0
    have hq0 : ¬(q = 0) := by simpa [truthy] using htr
    have : q = 0 := by simpa [looseEqNum, toNumber] using h0
    exact hq0 this
  · intro san secret db b s hpend heq
    obtain ⟨htr, _⟩ := notify_pending_inv san secret db b hpend
    rw [heq] at htr
    intro hs
    rw [hs] at htr
    simp [truthy] at htr

/-- Witness for C9 (amended): the number-0 payload is rejected as missing,
and the string reaching `pending` in the concrete pending run is
non-empty. -/
theorem claim_C9_witness :
    notifyPayhere id (some "SECRET") [] wNotifyNum0 = ⟨respMissing, [], ""⟩ ∧
    ("0" : String) ≠ "" :=
  ⟨claim_C9.1 id (some "SECRET") [] wNotifyNum0 rfl,
   claim_C9.2.2.2 id (some "SECRET") [] wNotifyPending "0" (by decide) rfl⟩

/-- C1: replaying a valid, correctly signed `statusCode = 2` notification
any number of times leaves exactly one PayHere `success` record for its
order id — the first run appends the record and answers `notified`, every
later run finds it, answers `already_processed`, and leaves the ledger
untouched. -/
theorem claim_C1 (san : String → String) (sec : String)
    (db : List PaymentRecord) (b : NotifyBody)
    (hreq : notifyRequiredOk b = true)
    (hsig : strictEqStr (notifyLocalSignature sec b) b.md5sig = true)
    (hcode : looseEqNum b.status_code 2 = true)
    (hfresh : findPayment db b.order_id "PayHere" = none) :
    notifyPayhere san (some sec) db b =
      ⟨respNotified,
        db ++ [mkNotifyRecord b (notifyCustomer san b.custom_1)],
        "success"⟩ ∧
    notifyPayhere san (some sec)
        (db ++ [mkNotifyRecord b (notifyCustomer san b.custom_1)]) b =
      ⟨respAlready,
        db ++ [mkNotifyRecord b (notifyCustomer san b.custom_1)],
        "success"⟩ ∧
    (∀ n, iterateNotify san sec b n
        (db ++ [mkNotifyRecord b (notifyCustomer san b.custom_1)]) =
      db ++ [mkNotifyRecord b (notifyCustomer san b.custom_1)]) ∧
    (∀ n, successCount
        (iterateNotify san sec b n
          (db ++ [mkNotifyRecord b (notifyCustomer san b.custom_1)]))
        b.order_id = 1) := by
  have h1 : notifyPayhere san (some sec) db b =
      ⟨respNotified,
        db ++ [mkNotifyRecord b (notifyCustomer san b.custom_1)],
        "success"⟩ := by
    simp [notifyPayhere, hreq, hsig, hcode, hfresh]
  have hfind2 : findPayment
      (db ++ [mkNotifyRecord b (notifyCustomer san b.custom_1)])
      b.order_id "PayHere" =
      some (mkNotifyRecord b (notifyCustomer san b.custom_1)) :=
    findPayment_append_singleton hfresh rfl rfl
  have h3 : notifyPayhere san (some sec)
      (db ++ [mkNotifyRecord b (notifyCustomer san b.custom_1)]) b =
      ⟨respAlready,
        db ++ [mkNotifyRecord b (notifyCustomer san b.custom_1)],
        "success"⟩ := by
    simp [notifyPayhere, hreq, hsig, hcode, hfind2]
  have h2 : ∀ n, iterateNotify san sec b n
      (db ++ [mkNotifyRecord b (notifyCustomer san b.custom_1)]) =
      db ++ [mkNotifyRecord b (notifyCustomer san b.custom_1)] := by
    intro n
    induction n with
    | zero => rfl
    | succ n ih =>
      show iterateNotify san sec b n
          (notifyPayhere san (some sec)
            (db ++ [mkNotifyRecord b (notifyCustomer san b.custom_1)]) b).db =
        _
      rw [h3]
      exact ih
  have hcount : successCount
      (db ++ [mkNotifyRecord b (notifyCustomer san b.custom_1)])
      b.order_id = 1 := by
    unfold successCount
    rw [List.filter_append]
    have hnil : db.filter (fun r =>
        decide (r.order_id = b.order_id ∧ r.paymentType = "PayHere" ∧
          r.status = "success")) = [] := by
      rw [List.filter_eq_nil_iff]
      intro x hx
      have hnk := findPayment_none_iff.mp hfresh x hx
      simp only [decide_eq_true_eq]
      intro hcontra
      exact hnk ⟨hcontra.1, hcontra.2.1⟩
    rw [hnil]
    simp [mkNotifyRecord]
  exact ⟨h1, h3, h2, fun n => by rw [h2 n]; exact hcount⟩

/-- Witness for C1: the concrete notification appends its record on the
first run, and after three replays the ledger still holds exactly one
success record for the order. -/
theorem claim_C1_witness :
    notifyPayhere id (some "SECRET") [] wNotify =
      ⟨respNotified,
        [mkNotifyRecord wNotify (notifyCustomer id wNotify.custom_1)],
        "success"⟩ ∧
    successCount
      (iterateNotify id "SECRET" wNotify 3
        ([mkNotifyRecord wNotify (notifyCustomer id wNotify.custom_1)]))
      wNotify.order_id = 1 := by
  have h := claim_C1 id "SECRET" [] wNotify (by decide) (by decide)
    (by decide) rfl
  exact ⟨h.1, h.2.2.2 3⟩

/-- Counterexample to C5 as stated: for a concrete transaction (order `O1`,
amount `1000.00`, currency `LKR`), the hash the initiate route returns is
not the signature the notify route accepts — a notification for that very
transaction presenting the initiate hash as its `md5sig` is rejected with
400 `Invalid signature` and nothing is written. -/
theorem claim_C5_counterexample :
    (initiatePayhere id (some "SECRET") wInit).hash =
      some (initiateHash id "SECRET" wInit) ∧
    wNotifyInitSig.md5sig = .str (initiateHash id "SECRET" wInit) ∧
    notifyPayhere id (some "SECRET") [] wNotifyInitSig =
      ⟨respBadSig, [], ""⟩ := by
  exact ⟨by decide, rfl, by decide⟩

/-- C5 (amended): the signature the notify route accepts is exactly the
upper-cased MD5 of merchant id + order id + amount + currency +
`status_code` + upper-cased MD5 of the secret — the checkout hash returned
by the initiate route omits `status_code`, so it is not the accepted
`md5sig`: for every field-valid notification, the handler rejects with
`Invalid signature` exactly when `md5sig` differs from that
status-code-bearing digest. -/
theorem claim_C5 (san : String → String) (sec : String)
    (db : List PaymentRecord) (b : NotifyBody)
    (hreq : notifyRequiredOk b = true) :
    (notifyPayhere san (some sec) db b).resp ≠ respBadSig ↔
      b.md5sig = .str (md5HexUpper (jsToString b.merchant_id ++
        jsToString b.order_id ++ jsToString b.payhere_amount ++
        jsToString b.payhere_currency ++ jsToString b.status_code ++
        md5HexUpper sec)) := by
  show _ ↔ b.md5sig = .str (notifyLocalSignature sec b)
  constructor
  · intro hne
    cases hs : strictEqStr (notifyLocalSignature sec b) b.md5sig
    · exact absurd (by simp [notifyPayhere, hreq, hs]) hne
    · unfold strictEqStr at hs
      cases hm : b.md5sig <;> rw [hm] at hs <;> simp at hs
      rw [hs]
  · intro heq
    have hs : strictEqStr (notifyLocalSignature sec b) b.md5sig = true := by
      rw [heq]; simp [strictEqStr]
    have hd1 : respNotified ≠ respBadSig := by decide
    have hd2 : respAlready ≠ respBadSig := by decide
    cases hc : looseEqNum b.status_code 2
    · simp [notifyPayhere, hreq, hs, hc, hd1]
    · cases hf : findPayment db b.order_id "PayHere" <;>
        simp [notifyPayhere, hreq, hs, hc, hf, hd1, hd2]

/-- Witness for C5 (amended): the correctly signed concrete notification is
not rejected for its signature. -/
theorem claim_C5_witness :
    (notifyPayhere id (some "SECRET") [] wNotify).resp ≠ respBadSig :=
  (claim_C5 id "SECRET" [] wNotify (by decide)).mpr rfl

/-- C2: under sequential execution both ledger-touching handlers are
append-only — the prior ledger is always a prefix of the new one, so no
record is mutated or deleted — and both preserve at-most-one-record-per-
`(orderId, paymentType)`; in particular at most one success/completed
record per key survives any run. -/
theorem claim_C2 :
    (∀ (san : String → String) (secret : Option String)
      (db : List PaymentRecord) (b : NotifyBody),
      (∃ t, (notifyPayhere san secret db b).db = db ++ t) ∧
      (noDupKeys db → noDupKeys (notifyPayhere san secret db b).db ∧
        atMostOneSuccess (notifyPayhere san secret db b).db)) ∧
    (∀ (san : String → String) (orderInfo authInfo : PaypalOrderInfo)
      (db : List PaymentRecord) (bc : CaptureBody),
      (∃ t, (capturePaypal san orderInfo authInfo db bc).2 = db ++ t) ∧
      (noDupKeys db →
        noDupKeys (capturePaypal san orderInfo authInfo db bc).2 ∧
        atMostOneSuccess (capturePaypal san orderInfo authInfo db bc).2)) := by
  constructor
  · intro san secret db b
    rcases notify_db_cases san secret db b with h | ⟨h, hf⟩
    · refine ⟨⟨[], by simp [h]⟩, fun hnd => ?_⟩
      rw [h]
      exact ⟨hnd, atMostOneSuccess_of_noDupKeys hnd⟩
    · refine ⟨⟨_, h⟩, fun hnd => ?_⟩
      rw [h]
      have hnd2 : noDupKeys
          (db ++ [mkNotifyRecord b (notifyCustomer san b.custom_1)]) :=
        noDupKeys_append hnd hf
      exact ⟨hnd2, atMostOneSuccess_of_noDupKeys hnd2⟩
  · intro san orderInfo authInfo db bc
    rcases capture_db_cases san orderInfo authInfo db bc with h | ⟨info, a, h, hf⟩
    · refine ⟨⟨[], by simp [h]⟩, fun hnd => ?_⟩
      rw [h]
      exact ⟨hnd, atMostOneSuccess_of_noDupKeys hnd⟩
    · refine ⟨⟨_, h⟩, fun hnd => ?_⟩
      rw [h]
      have hnd2 : noDupKeys (db ++ [mkCaptureRecord san bc info a]) :=
        noDupKeys_append hnd hf
      exact ⟨hnd2, atMostOneSuccess_of_noDupKeys hnd2⟩

/-- Witness for C2 at concrete runs of both handlers from the empty
ledger. -/
theorem claim_C2_witness :
    (∃ t, (notifyPayhere id (some "SECRET") [] wNotify).db = [] ++ t) ∧
    noDupKeys (notifyPayhere id (some "SECRET") [] wNotify).db ∧
    (∃ t, (capturePaypal id wOrderInfo wOrderInfo [] wCapture).2 = [] ++ t) ∧
    atMostOneSuccess (capturePaypal id wOrderInfo wOrderInfo [] wCapture).2 :=
  ⟨(claim_C2.1 id (some "SECRET") [] wNotify).1,
   ((claim_C2.1 id (some "SECRET") [] wNotify).2 List.Pairwise.nil).1,
   (claim_C2.2 id wOrderInfo wOrderInfo [] wCapture).1,
   ((claim_C2.2 id wOrderInfo wOrderInfo [] wCapture).2 List.Pairwise.nil).2⟩

end Travelling
